import Mathlib

/-!
Verification development for a microscopic traffic simulator (IDM car
following, MOBIL lane changes, a six-segment road network, a two-mode
traffic-light controller, and a virtual sensor layer).

JavaScript floating point numbers are modelled by real numbers where the
source computes with `Math.sqrt` (the IDM / MOBIL layer) and by rational
numbers elsewhere, so that the road, controller and sensor layers stay
computable.  Randomness (`Math.random`) is modelled by explicit parameters.
Fields of the source objects that are written but never read
(`lastSwitchTime`, `firstCarTriggered`), and the purely optical lane
interpolation fields (`v`, `dvdt`, `fracLaneOptical`, `laneOld`, `dt_LC`,
`dt_afterLC`), are not part of the state modelled here.
-/

namespace Traffic

/-! ## IDM car-following model (idmModel.js, class IDMModel) -/

/-- Parameters of the Intelligent Driver Model, mirroring the fields set by
the `IDMModel` constructor.  `driverfactor` is drawn by the constructor as
`1 + driverVariance * (Math.random() - 0.5)`; it is a field here. -/
structure IDMModel where
  v0 : ℝ
  T : ℝ
  s0 : ℝ
  a : ℝ
  b : ℝ
  bmax : ℝ
  driverfactor : ℝ
  speedlimit : ℝ
  speedmax : ℝ
  alpha_v0 : ℝ

/-- Effective desired speed: `Math.min(v0 * driverfactor * alpha_v0, speedlimit, speedmax)`. -/
noncomputable def IDMModel.v0eff (m : IDMModel) : ℝ :=
  min (min (m.v0 * m.driverfactor * m.alpha_v0) m.speedlimit) m.speedmax

/-- Effective acceleration: `a * driverfactor`. -/
noncomputable def IDMModel.aeff (m : IDMModel) : ℝ :=
  m.a * m.driverfactor

/-- Free-flow acceleration of `calcAccDet`: a quartic law under the desired
speed, a linear decay over it. -/
noncomputable def IDMModel.accFree (m : IDMModel) (v : ℝ) : ℝ :=
  if v < m.v0eff then m.aeff * (1 - (v / m.v0eff) ^ 4)
  else m.aeff * (1 - v / m.v0eff)

/-- The desired dynamical gap computed inside `calcAccDet`:
`s0 + max(0, v*T + 0.5*v*(v - vl) / Math.sqrt(aeff * b))`. -/
noncomputable def IDMModel.sstar (m : IDMModel) (v vl : ℝ) : ℝ :=
  m.s0 + max 0 (v * m.T + 0.5 * v * (v - vl) / Real.sqrt (m.aeff * m.b))

/-- The interaction term of `calcAccDet` when `s > 0 && v >= 0`:
`-aeff * (sstar / max(s, s0))^2`. -/
noncomputable def IDMModel.accIntTerm (m : IDMModel) (s v vl : ℝ) : ℝ :=
  -m.aeff * (m.sstar v vl / max s m.s0) ^ 2

/-- idmModel.js `calcAccDet(s, v, vl, al)`: IDM acceleration from the gap
`s`, own speed `v` and leader speed `vl` (`al` is accepted and unused, as in
the source), clamped below by `-bmax`. -/
noncomputable def IDMModel.calcAccDet (m : IDMModel) (s v vl al : ℝ) : ℝ :=
  let accFree := m.accFree v
  let accInt := if 0 < s ∧ 0 ≤ v then m.accIntTerm s v vl else 0
  max (-m.bmax) (accFree + accInt)

/-- The `IDMModel` built by `new IDMModel()` with every constructor default
and a driver factor of 1 (the mean of the random draw). -/
noncomputable def idmDefault : IDMModel :=
  { v0 := 15, T := 1, s0 := 2, a := 2, b := 2, bmax := 4
    driverfactor := 1, speedlimit := 50, speedmax := 60, alpha_v0 := 1 }

/-- An `IDMModel` the constructor can produce: default parameters with a
driver factor of `21/20`, inside the constructor's range `(0.9, 1.1)`. -/
noncomputable def idmFast : IDMModel :=
  { v0 := 15, T := 1, s0 := 2, a := 2, b := 2, bmax := 4
    driverfactor := 21 / 20, speedlimit := 50, speedmax := 60, alpha_v0 := 1 }

/-- C1, counterexample.  The claim asserts the free-flow term is bounded by
`a`; with the driver factor `21/20` (a value the constructor draws with
positive probability) the free-flow acceleration at speed 0 is
`aeff = a * driverfactor = 21/10 > 2 = a`. -/
theorem C1_counterexample : idmFast.a < idmFast.accFree 0 := by
  have hv0 : idmFast.v0eff = 63 / 4 := by
    simp only [IDMModel.v0eff, idmFast]
    norm_num
  simp only [IDMModel.accFree, IDMModel.aeff, hv0, idmFast]
  norm_num

/-- C1, as amended.  For every gap `s > 0`, speed `v ≥ 0` and leader speed
`vl`, `calcAccDet` returns `max(-bmax, accFree + accInt)` with `accInt` the
interaction term `-aeff*(sstar/max(s,s0))^2`; the result is always at least
`-bmax`; and the free-flow term is bounded by `aeff = a * driverfactor`
(not in general by `a` itself). -/
theorem C1_idm_formula_and_bounds (m : IDMModel) (s v vl al : ℝ)
    (hs : 0 < s) (hv : 0 ≤ v) (ha : 0 ≤ m.aeff) (hv0 : 0 < m.v0eff) :
    m.calcAccDet s v vl al = max (-m.bmax) (m.accFree v + m.accIntTerm s v vl) ∧
    -m.bmax ≤ m.calcAccDet s v vl al ∧
    m.accFree v ≤ m.aeff := by
  refine ⟨?_, ?_, ?_⟩
  · simp only [IDMModel.calcAccDet, if_pos (And.intro hs hv)]
  · simp only [IDMModel.calcAccDet]
    exact le_max_left _ _
  · unfold IDMModel.accFree
    by_cases hlt : v < m.v0eff
    · rw [if_pos hlt]
      have hpow : 0 ≤ (v / m.v0eff) ^ 4 := by positivity
      nlinarith
    · rw [if_neg hlt]
      have hge : m.v0eff ≤ v := le_of_not_lt hlt
      have hdiv : 1 ≤ v / m.v0eff := (one_le_div hv0).mpr hge
      nlinarith

/-- C1, witness: the amended theorem applied to the default model at gap 10,
speed 5, leader speed 5. -/
theorem C1_witness :
    (0 : ℝ) < 10 ∧ (0 : ℝ) ≤ 5 ∧ 0 ≤ idmDefault.aeff ∧ 0 < idmDefault.v0eff ∧
    (idmDefault.calcAccDet 10 5 5 0 =
        max (-idmDefault.bmax) (idmDefault.accFree 5 + idmDefault.accIntTerm 10 5 5) ∧
      -idmDefault.bmax ≤ idmDefault.calcAccDet 10 5 5 0 ∧
      idmDefault.accFree 5 ≤ idmDefault.aeff) := by
  have ha : 0 ≤ idmDefault.aeff := by
    simp only [IDMModel.aeff, idmDefault]; norm_num
  have hv0 : 0 < idmDefault.v0eff := by
    simp only [IDMModel.v0eff, idmDefault]; norm_num
  exact ⟨by norm_num, by norm_num, ha, hv0,
    C1_idm_formula_and_bounds idmDefault 10 5 5 0 (by norm_num) (by norm_num) ha hv0⟩

/-! ## MOBIL lane-change model (idmModel.js, class MOBILModel) -/

/-- Parameters of the MOBIL lane-change model, mirroring the fields of the
`MOBILModel` constructor. -/
structure MOBILModel where
  p : ℝ
  aThr : ℝ
  biasRight : ℝ
  bSafe : ℝ
  gapMin : ℝ
  factorOther : ℝ

/-- A vehicle as the MOBIL model reads it: identity, arc-length position,
speed, acceleration, body length, its own IDM model and the mandatory
lane-change flag. -/
structure MVehicle where
  id : ℕ
  u : ℝ
  speed : ℝ
  acc : ℝ
  length : ℝ
  idmModel : IDMModel
  mandatoryLaneChange : Bool

/-- `findLeadingVehicle`: the closest other vehicle ahead of `vehicle` in
the given lane list, scanning in list order and keeping the strictly
smallest distance, as the source loop does (no candidate yet plays the role
of the infinite initial `minDistance`). -/
noncomputable def findLeadingVehicle (vehicle : MVehicle) (laneVehicles : List MVehicle) :
    Option MVehicle :=
  laneVehicles.foldl
    (fun leader other =>
      match leader with
      | none =>
          if other.id ≠ vehicle.id ∧ vehicle.u < other.u then some other else none
      | some prev =>
          if other.id ≠ vehicle.id ∧ vehicle.u < other.u ∧
              other.u - vehicle.u < prev.u - vehicle.u
          then some other else some prev)
    none

/-- `findFollowingVehicle`: the closest other vehicle behind `vehicle` in
the given lane list. -/
noncomputable def findFollowingVehicle (vehicle : MVehicle) (laneVehicles : List MVehicle) :
    Option MVehicle :=
  laneVehicles.foldl
    (fun follower other =>
      match follower with
      | none =>
          if other.id ≠ vehicle.id ∧ other.u < vehicle.u then some other else none
      | some prev =>
          if other.id ≠ vehicle.id ∧ other.u < vehicle.u ∧
              vehicle.u - other.u < vehicle.u - prev.u
          then some other else some prev)
    none

/-- `calculateLaneAcceleration`: the IDM acceleration `vehicle` would have in
the lane, using a nominal gap of 1000 when the lane holds no leader. -/
noncomputable def MOBILModel.calculateLaneAcceleration (_m : MOBILModel)
    (vehicle : MVehicle) (laneVehicles : List MVehicle) : ℝ :=
  match findLeadingVehicle vehicle laneVehicles with
  | none => vehicle.idmModel.calcAccDet 1000 vehicle.speed vehicle.speed 0
  | some leader =>
      vehicle.idmModel.calcAccDet (leader.u - vehicle.u - leader.length)
        vehicle.speed leader.speed leader.acc

/-- `calculateFollowerImpact`: the acceleration the new target-lane follower
would compute behind `vehicle`; 0 when the target lane holds no follower. -/
noncomputable def MOBILModel.calculateFollowerImpact (_m : MOBILModel)
    (vehicle : MVehicle) (targetLaneVehicles : List MVehicle) : ℝ :=
  match findFollowingVehicle vehicle targetLaneVehicles with
  | none => 0
  | some follower =>
      follower.idmModel.calcAccDet (vehicle.u - follower.u - vehicle.length)
        follower.speed vehicle.speed vehicle.acc

/-- `calculateOthersGain`: the current-lane follower's acceleration gain
(space freed) net of the target-lane follower's loss (space taken), scaled
by `factorOther`. -/
noncomputable def MOBILModel.calculateOthersGain (m : MOBILModel)
    (vehicle : MVehicle) (currentLane targetLane : List MVehicle) : ℝ :=
  let gainCurrent :=
    match findFollowingVehicle vehicle currentLane with
    | none => 0
    | some currentFollower =>
        let newAcc :=
          match findLeadingVehicle vehicle currentLane with
          | none =>
              currentFollower.idmModel.calcAccDet 1000 currentFollower.speed
                currentFollower.speed 0
          | some currentLeader =>
              currentFollower.idmModel.calcAccDet
                (currentLeader.u - currentFollower.u - currentLeader.length)
                currentFollower.speed currentLeader.speed currentLeader.acc
        newAcc - currentFollower.acc
  let lossTarget :=
    match findFollowingVehicle vehicle targetLane with
    | none => 0
    | some targetFollower =>
        let newAcc :=
          targetFollower.idmModel.calcAccDet
            (vehicle.u - targetFollower.u - vehicle.length)
            targetFollower.speed vehicle.speed vehicle.acc
        newAcc - targetFollower.acc
  (gainCurrent - lossTarget) * m.factorOther

/-- Result record of `shouldChangeLanes`.  The early safety return of the
source omits the `incentive` and `safety` fields, hence the options. -/
structure LaneChangeDecision where
  shouldChange : Bool
  urgency : ℝ
  reason : String
  incentive : Option ℝ
  safety : Option ℝ

/-- `shouldChangeLanes(vehicle, currentLane, targetLane, direction)`: reject
when the target-lane follower would have to brake harder than `bSafe`; else
accept when the politeness- and bias-adjusted incentive exceeds
`aThr * urgencyMultiplier`, with a mandatory change adding `aThr` to the
incentive and doubling the multiplier. -/
noncomputable def MOBILModel.shouldChangeLanes (m : MOBILModel) (vehicle : MVehicle)
    (currentLane targetLane : List MVehicle) (direction : ℤ) : LaneChangeDecision :=
  let accCurrent := m.calculateLaneAcceleration vehicle currentLane
  let accTarget := m.calculateLaneAcceleration vehicle targetLane
  let followerDecel := m.calculateFollowerImpact vehicle targetLane
  if followerDecel < -m.bSafe then
    { shouldChange := false, urgency := 0, reason := "unsafe_follower",
      incentive := none, safety := none }
  else
    let politenessGain := m.p * m.calculateOthersGain vehicle currentLane targetLane
    let incentiveBase := accTarget - accCurrent + politenessGain
    let incentiveBiased := if 0 < direction then incentiveBase + m.biasRight else incentiveBase
    let urgencyMultiplier : ℝ := if vehicle.mandatoryLaneChange then 2 else 1
    let incentive :=
      if vehicle.mandatoryLaneChange then incentiveBiased + m.aThr else incentiveBiased
    let ok := decide (m.aThr * urgencyMultiplier < incentive)
    { shouldChange := ok, urgency := max 0 incentive,
      reason := if ok then "beneficial" else "insufficient_gain",
      incentive := some incentive, safety := some followerDecel }

/-- The `MOBILModel(0.5, 0.5, 0.1)` normal-courtesy instance built by the
`Road` constructor (`safeDecel` defaulted to 4). -/
noncomputable def LCModelNormal : MOBILModel :=
  { p := 0.5, aThr := 0.5, biasRight := 0.1, bSafe := 4, gapMin := 2, factorOther := 1 }

/-- A concrete vehicle used to instantiate the MOBIL theorems. -/
noncomputable def mobilCar : MVehicle :=
  { id := 1, u := 50, speed := 10, acc := 0, length := 5, idmModel := idmDefault,
    mandatoryLaneChange := false }

/-- C2.  The MOBIL safety gate: a follower deceleration below `-bSafe`
forces `shouldChange = false`; an accepted change therefore has follower
impact at least `-bSafe`; and with no follower in the target lane the
impact term is 0, which passes the gate whenever `bSafe ≥ 0`. -/
theorem C2_lane_change_safety (m : MOBILModel) (vehicle : MVehicle)
    (currentLane targetLane : List MVehicle) (direction : ℤ) :
    (m.calculateFollowerImpact vehicle targetLane < -m.bSafe →
      (m.shouldChangeLanes vehicle currentLane targetLane direction).shouldChange = false) ∧
    ((m.shouldChangeLanes vehicle currentLane targetLane direction).shouldChange = true →
      -m.bSafe ≤ m.calculateFollowerImpact vehicle targetLane) ∧
    (findFollowingVehicle vehicle targetLane = none →
      m.calculateFollowerImpact vehicle targetLane = 0 ∧
      (0 ≤ m.bSafe → ¬ m.calculateFollowerImpact vehicle targetLane < -m.bSafe)) := by
  refine ⟨?_, ?_, ?_⟩
  · intro h
    simp only [MOBILModel.shouldChangeLanes, if_pos h]
  · intro h
    by_contra hlt
    push_neg at hlt
    simp only [MOBILModel.shouldChangeLanes, if_pos hlt] at h
    exact Bool.false_ne_true h
  · intro h
    have himp : m.calculateFollowerImpact vehicle targetLane = 0 := by
      simp only [MOBILModel.calculateFollowerImpact, h]
    refine ⟨himp, fun hb => ?_⟩
    rw [himp]
    intro hcon
    linarith

/-- C2, witness: the safety theorem at the normal model with empty lanes,
every hypothesis discharged at that input. -/
theorem C2_witness :
    findFollowingVehicle mobilCar [] = none ∧
    LCModelNormal.calculateFollowerImpact mobilCar [] = 0 ∧
    (0 ≤ LCModelNormal.bSafe →
      ¬ LCModelNormal.calculateFollowerImpact mobilCar [] < -LCModelNormal.bSafe) :=
  ⟨rfl, (C2_lane_change_safety LCModelNormal mobilCar [] [] 1).2.2 rfl⟩

/-- The politeness- and bias-adjusted incentive computed by
`shouldChangeLanes` before the mandatory adjustment (a proof-side name for
the value the source holds in `incentive` just before the urgency block). -/
noncomputable def MOBILModel.incentiveBiased (m : MOBILModel) (vehicle : MVehicle)
    (currentLane targetLane : List MVehicle) (direction : ℤ) : ℝ :=
  let base := m.calculateLaneAcceleration vehicle targetLane -
      m.calculateLaneAcceleration vehicle currentLane +
      m.p * m.calculateOthersGain vehicle currentLane targetLane
  if 0 < direction then base + m.biasRight else base

/-- When the safety gate fires, `shouldChangeLanes` answers `false`. -/
theorem shouldChange_of_gate (m : MOBILModel) (vehicle : MVehicle)
    (currentLane targetLane : List MVehicle) (direction : ℤ)
    (h : m.calculateFollowerImpact vehicle targetLane < -m.bSafe) :
    (m.shouldChangeLanes vehicle currentLane targetLane direction).shouldChange = false := by
  simp only [MOBILModel.shouldChangeLanes, if_pos h]

/-- When the safety gate passes, `shouldChangeLanes` answers the threshold
test on the adjusted incentive. -/
theorem shouldChange_of_no_gate (m : MOBILModel) (vehicle : MVehicle)
    (currentLane targetLane : List MVehicle) (direction : ℤ)
    (h : ¬ m.calculateFollowerImpact vehicle targetLane < -m.bSafe) :
    (m.shouldChangeLanes vehicle currentLane targetLane direction).shouldChange =
      decide (m.aThr * (if vehicle.mandatoryLaneChange then (2 : ℝ) else 1) <
        (if vehicle.mandatoryLaneChange
          then m.incentiveBiased vehicle currentLane targetLane direction + m.aThr
          else m.incentiveBiased vehicle currentLane targetLane direction)) := by
  simp only [MOBILModel.shouldChangeLanes, MOBILModel.incentiveBiased, if_neg h]

/-- Changing only the `mandatoryLaneChange` flag of the candidate vehicle
changes none of the accelerations MOBIL computes (they read every field but
the flag), and the `aThr` bonus cancels the doubled multiplier, so the
decision is unchanged. -/
theorem shouldChangeLanes_flag (m : MOBILModel) (vehicle : MVehicle)
    (currentLane targetLane : List MVehicle) (direction : ℤ) :
    (m.shouldChangeLanes { vehicle with mandatoryLaneChange := true }
        currentLane targetLane direction).shouldChange =
    (m.shouldChangeLanes { vehicle with mandatoryLaneChange := false }
        currentLane targetLane direction).shouldChange := by
  have himp : m.calculateFollowerImpact { vehicle with mandatoryLaneChange := true }
      targetLane =
      m.calculateFollowerImpact { vehicle with mandatoryLaneChange := false } targetLane := rfl
  have hinc : m.incentiveBiased { vehicle with mandatoryLaneChange := true }
      currentLane targetLane direction =
      m.incentiveBiased { vehicle with mandatoryLaneChange := false }
        currentLane targetLane direction := rfl
  by_cases hgate :
      m.calculateFollowerImpact { vehicle with mandatoryLaneChange := false }
        targetLane < -m.bSafe
  · rw [shouldChange_of_gate m _ currentLane targetLane direction (himp ▸ hgate),
      shouldChange_of_gate m _ currentLane targetLane direction hgate]
  · rw [shouldChange_of_no_gate m _ currentLane targetLane direction (himp ▸ hgate),
      shouldChange_of_no_gate m _ currentLane targetLane direction hgate]
    simp only [hinc, decide_eq_decide, if_true, Bool.false_eq_true, if_false]
    constructor
    · intro h; linarith
    · intro h; linarith

/-- C8, counterexample.  The claim asserts some base incentive is accepted
as a mandatory change yet rejected as a normal change with everything else
equal; no such configuration exists, because the `aThr` bonus exactly
cancels the doubled multiplier. -/
theorem C8_counterexample :
    ¬ ∃ (m : MOBILModel) (vehicle : MVehicle) (currentLane targetLane : List MVehicle)
        (direction : ℤ),
      (m.shouldChangeLanes { vehicle with mandatoryLaneChange := true }
          currentLane targetLane direction).shouldChange = true ∧
      (m.shouldChangeLanes { vehicle with mandatoryLaneChange := false }
          currentLane targetLane direction).shouldChange = false := by
  rintro ⟨m, vehicle, currentLane, targetLane, direction, h1, h2⟩
  rw [shouldChangeLanes_flag m vehicle currentLane targetLane direction] at h1
  rw [h2] at h1
  exact Bool.false_ne_true h1

/-- C8, as amended.  Mandatory changes do not lower the effective acceptance
threshold: adding `aThr` to the incentive while doubling the multiplier
leaves the acceptance condition `incentive > aThr` unchanged, so with the
same model, vehicle and lanes the mandatory and normal decisions coincide. -/
theorem C8_mandatory_no_threshold_change (m : MOBILModel) (vehicle : MVehicle)
    (currentLane targetLane : List MVehicle) (direction : ℤ) :
    (m.shouldChangeLanes { vehicle with mandatoryLaneChange := true }
        currentLane targetLane direction).shouldChange =
    (m.shouldChangeLanes { vehicle with mandatoryLaneChange := false }
        currentLane targetLane direction).shouldChange :=
  shouldChangeLanes_flag m vehicle currentLane targetLane direction

/-! ## Road segments and the 6-road network (roadSystem.js, class Road;
part of Intersection in the network-setup file).  These layers use only
rational arithmetic, so they are modelled computably over ℚ. -/

/-- A vehicle as `Road.createVehicle` builds it.  The purely optical fields
(`v`, `dvdt`, `fracLaneOptical`, `laneOld`, `dt_LC`, `dt_afterLC`) are
rendering state and are not modelled. -/
structure RVehicle where
  id : ℕ
  route : List ℕ
  u : ℚ
  lane : ℕ
  speed : ℚ
  acc : ℚ
  len : ℚ
  width : ℚ
  type : String
  roadID : ℕ
  mandatoryLaneChange : Bool
  tacticalLaneChange : Bool
deriving DecidableEq

/-- `isRegularVeh()`: the vehicle is a car or a truck. -/
def RVehicle.isRegularVeh (veh : RVehicle) : Bool :=
  veh.type == "car" || veh.type == "truck"

/-- A connection entry as `Road.connect` stores it (`conflictingFlows` and
`speedLimit` are always null in the network setup and are not modelled; the
target road reference is modelled by its road id). -/
structure Connection where
  targetRoadID : ℕ
  uSource : ℚ
  uTarget : ℚ
  offsetLane : ℤ
deriving DecidableEq

/-- A road segment: the `Road` constructor state that the physics reads
(drawing arrays and per-road MOBIL instances are modelled elsewhere). -/
structure Road where
  roadID : ℕ
  roadLen : ℚ
  laneWidth : ℚ
  nLanes : ℕ
  veh : List RVehicle
  inVehBuffer : ℚ
  speedInit : ℚ
  speedmax : ℚ
  connects : List Connection
deriving DecidableEq

/-- The fixed physics timestep `CONFIG.PHYSICS.DT = 3.5 / 30` seconds; the
update functions below take `dt` as a parameter and the source always passes
this value. -/
def CONFIG_PHYSICS_DT : ℚ := 7 / 60

/-- One vehicle step of `updateSpeedPositions`: a regular vehicle moves by
`max(0, speed*dt + 0.5*acc*dt*dt)` and then clamps its speed at 0; other
vehicles are untouched. -/
def updateVehPos (dt : ℚ) (veh : RVehicle) : RVehicle :=
  if veh.isRegularVeh then
    { veh with
      u := veh.u + max 0 (veh.speed * dt + 1 / 2 * veh.acc * dt * dt),
      speed := max 0 (veh.speed + veh.acc * dt) }
  else veh

/-- roadSystem.js `updateSpeedPositions`: integrate every vehicle, then drop
those whose `u` exceeds `roadLen + 10`. -/
def Road.updateSpeedPositions (road : Road) (dt : ℚ) : Road :=
  { road with
    veh := (road.veh.map (updateVehPos dt)).filter
      (fun veh => decide (veh.u ≤ road.roadLen + 10)) }

/-- C3.  `updateSpeedPositions` performs the semi-implicit update, so no
vehicle's `u` decreases, every (regular) vehicle's speed ends nonnegative,
and every vehicle kept in the segment satisfies `u ≤ roadLen + 10`. -/
theorem C3_update_speed_positions (road : Road) (dt : ℚ)
    (hreg : ∀ veh ∈ road.veh, veh.isRegularVeh = true) :
    (∀ veh : RVehicle, veh.u ≤ (updateVehPos dt veh).u) ∧
    (∀ veh ∈ (road.updateSpeedPositions dt).veh, 0 ≤ veh.speed) ∧
    (∀ veh ∈ (road.updateSpeedPositions dt).veh, veh.u ≤ road.roadLen + 10) := by
  refine ⟨?_, ?_, ?_⟩
  · intro veh
    unfold updateVehPos
    by_cases h : veh.isRegularVeh
    · rw [if_pos h]
      have := le_max_left (0 : ℚ) (veh.speed * dt + 1 / 2 * veh.acc * dt * dt)
      simp only
      linarith
    · rw [if_neg h]
  · intro veh hmem
    unfold Road.updateSpeedPositions at hmem
    simp only [List.mem_filter, List.mem_map] at hmem
    obtain ⟨⟨w, hw, rfl⟩, _⟩ := hmem
    unfold updateVehPos
    rw [if_pos (hreg w hw)]
    exact le_max_left 0 _
  · intro veh hmem
    unfold Road.updateSpeedPositions at hmem
    simp only [List.mem_filter, decide_eq_true_eq] at hmem
    exact hmem.2

/-- A one-car road used to instantiate the road-level theorems. -/
def demoCar : RVehicle :=
  { id := 1, route := [0], u := 50, lane := 0, speed := 12, acc := 1,
    len := 5, width := 5 / 2, type := "car", roadID := 0,
    mandatoryLaneChange := false, tacticalLaneChange := false }

/-- Road 0 holding only `demoCar`, with no connection. -/
def demoRoad : Road :=
  { roadID := 0, roadLen := 200, laneWidth := 3, nLanes := 2,
    veh := [demoCar], inVehBuffer := 0, speedInit := 15, speedmax := 25,
    connects := [] }

/-- C3, witness: the integration theorem at `demoRoad` with the physics
timestep, its regularity hypothesis discharged by evaluation. -/
theorem C3_witness :
    (∀ veh ∈ demoRoad.veh, veh.isRegularVeh = true) ∧
    ((∀ veh : RVehicle, veh.u ≤ (updateVehPos CONFIG_PHYSICS_DT veh).u) ∧
      (∀ veh ∈ (demoRoad.updateSpeedPositions CONFIG_PHYSICS_DT).veh, 0 ≤ veh.speed) ∧
      (∀ veh ∈ (demoRoad.updateSpeedPositions CONFIG_PHYSICS_DT).veh,
        veh.u ≤ demoRoad.roadLen + 10)) :=
  ⟨by decide, C3_update_speed_positions demoRoad CONFIG_PHYSICS_DT (by decide)⟩

/-- roadSystem.js `createVehicle(route, vehType)`.  The three `Math.random()`
draws (id, initial lane, speed noise) are explicit parameters; the vehicle
starts 5 m into the segment with zero acceleration. -/
def Road.createVehicle (road : Road) (route : List ℕ) (randId randLane : ℕ)
    (speedNoise : ℚ) (vehType : String) : RVehicle :=
  { id := randId % 1000000,
    route := route,
    u := 5,
    lane := randLane % road.nLanes,
    speed := max 0 (road.speedInit + speedNoise),
    acc := 0,
    len := if vehType == "truck" then 10 else 5,
    width := if vehType == "truck" then 3 else 5 / 2,
    type := vehType,
    roadID := road.roadID,
    mandatoryLaneChange := false,
    tacticalLaneChange := false }

/-- roadSystem.js `canSpawnVehicle`: no existing vehicle may sit in the new
vehicle's lane within the 15 m spawn zone of its position. -/
def Road.canSpawnVehicle (road : Road) (newVeh : RVehicle) : Bool :=
  road.veh.all (fun existingVeh =>
    !(existingVeh.lane == newVeh.lane && decide (|existingVeh.u - newVeh.u| < 15)))

/-- roadSystem.js `updateBCup(flow, dt, possibleRoutes)`: accumulate
`flow*dt/3600` into the fractional buffer; at 1.0, build a vehicle (the
callers pass a single-route list, modelled by `route` directly; the random
draws are parameters) and append it, consuming 1.0 from the buffer, only
when the spawn zone is clear. -/
def Road.updateBCup (road : Road) (flow dt : ℚ) (route : List ℕ)
    (randId randLane : ℕ) (speedNoise : ℚ) : Road :=
  let road1 := { road with inVehBuffer := road.inVehBuffer + flow * dt / 3600 }
  if 1 ≤ road1.inVehBuffer then
    let newVeh := road1.createVehicle route randId randLane speedNoise "car"
    if road1.canSpawnVehicle newVeh then
      { road1 with veh := road1.veh ++ [newVeh], inVehBuffer := road1.inVehBuffer - 1 }
    else road1
  else road1

/-- C9.  `updateBCup` adds `flow*dt/3600` to the buffer and spawns at most
one vehicle: the vehicle is appended and the buffer decremented by exactly 1
iff the incremented buffer reached 1.0 and the spawn zone is clear; on a
rejected or unripe spawn the buffer keeps its incremented value and the
vehicle set is unchanged; the clearance test is exactly the 15 m same-lane
zone around the spawn position `u = 5`. -/
theorem C9_updateBCup (road : Road) (flow dt : ℚ) (route : List ℕ)
    (randId randLane : ℕ) (speedNoise : ℚ) :
    let buf := road.inVehBuffer + flow * dt / 3600
    let road1 : Road := { road with inVehBuffer := buf }
    let newVeh := road1.createVehicle route randId randLane speedNoise "car"
    let result := road.updateBCup flow dt route randId randLane speedNoise
    (result.veh = road.veh ++ [newVeh] ∧ result.inVehBuffer = buf - 1 ↔
      1 ≤ buf ∧ road1.canSpawnVehicle newVeh = true) ∧
    ((¬ 1 ≤ buf ∨ road1.canSpawnVehicle newVeh = false) →
      result.veh = road.veh ∧ result.inVehBuffer = buf) ∧
    result.veh.length ≤ road.veh.length + 1 ∧
    (road1.canSpawnVehicle newVeh = true ↔
      ∀ existingVeh ∈ road.veh, existingVeh.lane = newVeh.lane →
        ¬ |existingVeh.u - newVeh.u| < 15) ∧
    newVeh.u = 5 := by
  intro buf road1 newVeh result
  have hcan : (road1.canSpawnVehicle newVeh = true ↔
      ∀ existingVeh ∈ road.veh, existingVeh.lane = newVeh.lane →
        ¬ |existingVeh.u - newVeh.u| < 15) := by
    simp only [Road.canSpawnVehicle, List.all_eq_true, Bool.not_eq_true', Bool.and_eq_false_iff,
      beq_eq_false_iff_ne, ne_eq, decide_eq_false_iff_not, decide_eq_true_eq]
    constructor
    · intro h existingVeh hmem hlane
      rcases h existingVeh hmem with hne | habs
      · exact absurd hlane hne
      · exact habs
    · intro h existingVeh hmem
      by_cases hlane : existingVeh.lane = newVeh.lane
      · exact Or.inr (h existingVeh hmem hlane)
      · exact Or.inl hlane
  refine ⟨?_, ?_, ?_, hcan, rfl⟩
  · by_cases h1 : 1 ≤ buf
    · by_cases h2 : road1.canSpawnVehicle newVeh = true
      · simp only [result, Road.updateBCup]
        rw [if_pos h1, if_pos h2]
        exact iff_of_true ⟨rfl, rfl⟩ ⟨h1, h2⟩
      · simp only [result, Road.updateBCup]
        rw [if_pos h1, if_neg h2]
        refine iff_of_false ?_ ?_
        · rintro ⟨-, habs⟩
          have hq : buf = buf - 1 := habs
          linarith
        · rintro ⟨-, hc⟩
          exact h2 hc
    · simp only [result, Road.updateBCup]
      rw [if_neg h1]
      refine iff_of_false ?_ ?_
      · rintro ⟨-, habs⟩
        have hq : buf = buf - 1 := habs
        linarith
      · rintro ⟨hc, -⟩
        exact h1 hc
  · intro hrej
    by_cases h1 : 1 ≤ buf
    · rcases hrej with hc | hc
      · exact absurd h1 hc
      · have h2 : ¬ road1.canSpawnVehicle newVeh = true := by
          rw [hc]; exact Bool.false_ne_true
        simp only [result, Road.updateBCup]
        rw [if_pos h1, if_neg h2]
        exact ⟨rfl, rfl⟩
    · simp only [result, Road.updateBCup]
      rw [if_neg h1]
      exact ⟨rfl, rfl⟩
  · by_cases h1 : 1 ≤ buf
    · by_cases h2 : road1.canSpawnVehicle newVeh = true
      · simp only [result, Road.updateBCup]
        rw [if_pos h1, if_pos h2]
        simp
      · simp only [result, Road.updateBCup]
        rw [if_pos h1, if_neg h2]
        exact Nat.le_succ _
    · simp only [result, Road.updateBCup]
      rw [if_neg h1]
      exact Nat.le_succ _

/-! ## Connection processing (roadSystem.js `processConnections`, and the
network wiring of `Intersection.setupConnections`). -/

/-- roadSystem.js `shouldUseConnection`: a route with at most one hop left
matches the straight-through (same road id) connection, otherwise the
connection must lead to the route's next road id (`route[1]`). -/
def shouldUseConnection (selfID : ℕ) (veh : RVehicle) (connection : Connection) : Bool :=
  if veh.route.length ≤ 1 then connection.targetRoadID == selfID
  else
    match veh.route.get? 1 with
    | some nextRoadID => connection.targetRoadID == nextRoadID
    | none => false

/-- roadSystem.js `transferVehicle` (the per-vehicle part): set `u` to the
connection's target offset, adopt the target road id, and pop the completed
hop from the route. -/
def transferVehicle (connection : Connection) (veh : RVehicle) : RVehicle :=
  { veh with
    u := connection.uTarget,
    roadID := connection.targetRoadID,
    route := if 1 < veh.route.length then veh.route.drop 1 else veh.route }

/-- Process one connection of road `selfID` inside the network: the source's
downward index loop removes each matching vehicle (position at or past
`uSource`, route match) and pushes it onto the target road, so the target
receives the movers highest-position-index first. -/
def processConnection (network : List Road) (selfID : ℕ) (connection : Connection) :
    List Road :=
  match network.find? (fun road => road.roadID == selfID) with
  | none => network
  | some selfRoad =>
      let takes := fun veh : RVehicle =>
        decide (connection.uSource ≤ veh.u) && shouldUseConnection selfID veh connection
      let moved := (selfRoad.veh.filter takes).reverse.map (transferVehicle connection)
      let kept := selfRoad.veh.filter (fun veh => !(takes veh))
      let network1 := network.map (fun road =>
        if road.roadID == selfID then { road with veh := kept } else road)
      network1.map (fun road =>
        if road.roadID == connection.targetRoadID then { road with veh := road.veh ++ moved }
        else road)

/-- roadSystem.js `processConnections` for the road `selfID` of `network`:
fold the road's connection list over the network state. -/
def Road.processConnections (network : List Road) (selfID : ℕ) : List Road :=
  match network.find? (fun road => road.roadID == selfID) with
  | some selfRoad =>
      selfRoad.connects.foldl (fun acc connection => processConnection acc selfID connection)
        network
  | none => network

/-- A vehicle spawned on road 0 with route `[0, 5]` (east to south-exit,
`CONFIG.ROUTES.ROUTE_05`), driven to `u = 190`, the source offset of every
connection in the network. -/
def route05Car : RVehicle :=
  { id := 7, route := [0, 5], u := 190, lane := 1, speed := 10, acc := 0,
    len := 5, width := 5 / 2, type := "car", roadID := 0,
    mandatoryLaneChange := false, tacticalLaneChange := false }

/-- A road of the intersection network: length 200 m, 2 lanes. -/
def mkNetworkRoad (rid : ℕ) (vehs : List RVehicle) (cs : List Connection) : Road :=
  { roadID := rid, roadLen := 200, laneWidth := 3, nLanes := 2, veh := vehs,
    inVehBuffer := 0, speedInit := 15, speedmax := 25, connects := cs }

/-- The 6-road network exactly as `Intersection.setupConnections` wires it:
only the four straight-through connections 0→0, 1→1, 2→3 and 4→5 (source
offset 190, target offset 10) exist; no turn connection (in particular none
from road 0 to road 5) is ever created.  Road 0 holds `route05Car`. -/
def demoNetwork : List Road :=
  [ mkNetworkRoad 0 [route05Car]
      [{ targetRoadID := 0, uSource := 190, uTarget := 10, offsetLane := 0 }],
    mkNetworkRoad 1 [] [{ targetRoadID := 1, uSource := 190, uTarget := 10, offsetLane := 0 }],
    mkNetworkRoad 2 [] [{ targetRoadID := 3, uSource := 190, uTarget := 10, offsetLane := 0 }],
    mkNetworkRoad 3 [] [],
    mkNetworkRoad 4 [] [{ targetRoadID := 5, uSource := 190, uTarget := 10, offsetLane := 0 }],
    mkNetworkRoad 5 [] [] ]

/-- C6, evaluation at the failing input.  The vehicle with route `[0, 5]`
standing at road 0's connection source offset is not transferred: processing
road 0's connections leaves the whole network unchanged (the only road-0
connection leads back to road 0, which does not match the route's next hop
5), so the vehicle stays on road 0 and road 5 stays empty, against the
claimed transfer to road 5 with `u = 10` and route `[5]`. -/
theorem C6_route05_not_transferred :
    Road.processConnections demoNetwork 0 = demoNetwork ∧
    demoNetwork.map (fun road => (road.roadID, road.veh.map RVehicle.id)) =
      [(0, [7]), (1, []), (2, []), (3, []), (4, []), (5, [])] ∧
    (190 : ℚ) ≤ route05Car.u ∧ route05Car.route = [0, 5] :=
  ⟨by rfl, by rfl, by decide, by rfl⟩

/-! ## Traffic light controller (trafficLights.js, class
TrafficLightController).  Times are rational milliseconds. -/

/-- A signal color (`CONFIG.LIGHT_STATES`). -/
inductive LightState
  | red
  | yellow
  | green
deriving DecidableEq

/-- An approach (`CONFIG.DIRECTIONS`). -/
inductive Direction
  | north
  | south
  | east
  | west
deriving DecidableEq

/-- The duration settings the controller reads (milliseconds,
`CONFIG.DEFAULT_SETTINGS` keys actually consumed by the state machines). -/
structure TLSettings where
  GREEN_DURATION : ℚ
  YELLOW_DURATION : ℚ
  RED_DURATION : ℚ
  MIN_GREEN_TIME : ℚ
deriving DecidableEq

/-- `CONFIG.DEFAULT_SETTINGS` durations. -/
def defaultSettings : TLSettings :=
  { GREEN_DURATION := 100000, YELLOW_DURATION := 5000, RED_DURATION := 100000,
    MIN_GREEN_TIME := 5000 }

/-- Fixed-mode state (`this.fixedState`): phase index 0..5, phase timer,
active flag. -/
structure FixedState where
  currentPhase : ℕ
  phaseTimer : ℚ
  isActive : Bool

/-- The fixed-mode slice of the controller: its state and the per-approach
lights. -/
structure TLFixed where
  fixedState : FixedState
  lights : Direction → LightState

/-- `setAllLightsRed` (as a light map). -/
def allRed : Direction → LightState := fun _ => LightState.red

/-- `setFixedLightState`: reset all lights to red, then color the phase's
approach pair (phases 2 and 5 leave everything red). -/
def setFixedLightState (phase : ℕ) : Direction → LightState := fun d =>
  if phase = 0 then
    if d = Direction.north ∨ d = Direction.south then LightState.green else LightState.red
  else if phase = 1 then
    if d = Direction.north ∨ d = Direction.south then LightState.yellow else LightState.red
  else if phase = 3 then
    if d = Direction.west ∨ d = Direction.east then LightState.green else LightState.red
  else if phase = 4 then
    if d = Direction.west ∨ d = Direction.east then LightState.yellow else LightState.red
  else LightState.red

/-- `advanceFixedPhase`: step the phase index modulo 6, zero the timer,
re-derive the lights. -/
def advanceFixedPhase (s : TLFixed) : TLFixed :=
  { fixedState :=
      { s.fixedState with
        currentPhase := (s.fixedState.currentPhase + 1) % 6
        phaseTimer := 0 }
    lights := setFixedLightState ((s.fixedState.currentPhase + 1) % 6) }

/-- `initializeFixedMode`: phase 0 (NS green), timer 0, active. -/
def initializeFixedMode : TLFixed :=
  { fixedState := { currentPhase := 0, phaseTimer := 0, isActive := true },
    lights := setFixedLightState 0 }

/-- `updateFixedMode(deltaTime)`: bump the timer, then advance when the
current phase's required duration is reached (green phases 0 and 3 use
`GREEN_DURATION`, yellow phases 1 and 4 use `YELLOW_DURATION`, the
red-clearance phases 2 and 5 use the fixed 3000 ms). -/
def updateFixedMode (settings : TLSettings) (deltaTime : ℚ) (s : TLFixed) : TLFixed :=
  let s1 : TLFixed :=
    { s with fixedState :=
        { s.fixedState with phaseTimer := s.fixedState.phaseTimer + deltaTime } }
  match s1.fixedState.currentPhase with
  | 0 => if settings.GREEN_DURATION ≤ s1.fixedState.phaseTimer then advanceFixedPhase s1 else s1
  | 1 => if settings.YELLOW_DURATION ≤ s1.fixedState.phaseTimer then advanceFixedPhase s1 else s1
  | 2 => if 3000 ≤ s1.fixedState.phaseTimer then advanceFixedPhase s1 else s1
  | 3 => if settings.GREEN_DURATION ≤ s1.fixedState.phaseTimer then advanceFixedPhase s1 else s1
  | 4 => if settings.YELLOW_DURATION ≤ s1.fixedState.phaseTimer then advanceFixedPhase s1 else s1
  | 5 => if 3000 ≤ s1.fixedState.phaseTimer then advanceFixedPhase s1 else s1
  | _ + 6 => s1

/-- The required duration of each fixed phase as the claim states it. -/
def fixedPhaseDuration (settings : TLSettings) (phase : ℕ) : ℚ :=
  if phase = 0 ∨ phase = 3 then settings.GREEN_DURATION
  else if phase = 1 ∨ phase = 4 then settings.YELLOW_DURATION
  else 3000

/-- `updateFixedMode` in closed form: bump the timer, then advance exactly
when the phase's required duration is reached. -/
theorem updateFixedMode_eq (settings : TLSettings) (deltaTime : ℚ) (s : TLFixed)
    (h6 : s.fixedState.currentPhase < 6) :
    updateFixedMode settings deltaTime s =
      (if fixedPhaseDuration settings s.fixedState.currentPhase ≤
          s.fixedState.phaseTimer + deltaTime
        then advanceFixedPhase
          { s with fixedState :=
              { s.fixedState with phaseTimer := s.fixedState.phaseTimer + deltaTime } }
        else
          { s with fixedState :=
              { s.fixedState with phaseTimer := s.fixedState.phaseTimer + deltaTime } }) := by
  obtain ⟨⟨p, t, act⟩, lights⟩ := s
  interval_cases p <;> simp [updateFixedMode, fixedPhaseDuration]

/-- C4.  Fixed mode: a transition fires exactly when the bumped phase timer
reaches the phase's required duration, advancing the phase by one modulo 6
and zeroing the timer (otherwise only the timer grows); and from the initial
state, updates of accumulated time `GREEN + YELLOW + 3000 + GREEN + YELLOW +
3000` ms that meet each boundary return the controller to phase 0, timer 0,
with north and south green and east and west red. -/
theorem C4_fixed_cycle (settings : TLSettings) :
    (∀ s : TLFixed, ∀ deltaTime : ℚ, s.fixedState.currentPhase < 6 →
      (fixedPhaseDuration settings s.fixedState.currentPhase ≤
          s.fixedState.phaseTimer + deltaTime →
        (updateFixedMode settings deltaTime s).fixedState.currentPhase =
            (s.fixedState.currentPhase + 1) % 6 ∧
          (updateFixedMode settings deltaTime s).fixedState.phaseTimer = 0 ∧
          (updateFixedMode settings deltaTime s).lights =
            setFixedLightState ((s.fixedState.currentPhase + 1) % 6)) ∧
      (¬ fixedPhaseDuration settings s.fixedState.currentPhase ≤
          s.fixedState.phaseTimer + deltaTime →
        (updateFixedMode settings deltaTime s).fixedState.currentPhase =
            s.fixedState.currentPhase ∧
          (updateFixedMode settings deltaTime s).fixedState.phaseTimer =
            s.fixedState.phaseTimer + deltaTime)) ∧
    ([settings.GREEN_DURATION, settings.YELLOW_DURATION, 3000,
        settings.GREEN_DURATION, settings.YELLOW_DURATION, 3000].foldl
          (fun s deltaTime => updateFixedMode settings deltaTime s) initializeFixedMode =
      initializeFixedMode ∧
      initializeFixedMode.fixedState.currentPhase = 0 ∧
      initializeFixedMode.lights Direction.north = LightState.green ∧
      initializeFixedMode.lights Direction.south = LightState.green ∧
      initializeFixedMode.lights Direction.east = LightState.red ∧
      initializeFixedMode.lights Direction.west = LightState.red) := by
  constructor
  · intro s deltaTime h6
    rw [updateFixedMode_eq settings deltaTime s h6]
    constructor
    · intro h
      rw [if_pos h]
      exact ⟨rfl, rfl, rfl⟩
    · intro h
      rw [if_neg h]
      exact ⟨rfl, rfl⟩
  · refine ⟨?_, rfl, ?_, ?_, ?_, ?_⟩
    · simp only [List.foldl_cons, List.foldl_nil, initializeFixedMode, updateFixedMode,
        advanceFixedPhase, zero_add, le_refl, if_pos]
    · simp [initializeFixedMode, setFixedLightState]
    · simp [initializeFixedMode, setFixedLightState]
    · simp [initializeFixedMode, setFixedLightState]
    · simp [initializeFixedMode, setFixedLightState]

/-- Adaptive pair of opposing approaches. -/
inductive TLPair
  | WE
  | NS
deriving DecidableEq

/-- Adaptive sub-phase. -/
inductive AdaptivePhase
  | green
  | yellow
  | red
deriving DecidableEq

/-- Adaptive-mode state (`this.adaptiveState`); the write-only fields
`lastSwitchTime` and `firstCarTriggered` are not modelled. -/
structure AdaptiveState where
  currentPair : Option TLPair
  currentPhase : AdaptivePhase
  phaseTimer : ℚ
  isActive : Bool
  scoreWE : ℚ
  scoreNS : ℚ

/-- The adaptive-mode slice of the controller. -/
structure TLAdaptive where
  adaptiveState : AdaptiveState
  lights : Direction → LightState

/-- Score lookup `priorityScores[pair] || 0` (a missing key reads as 0). -/
def priorityScore (st : AdaptiveState) (pair : Option TLPair) : ℚ :=
  match pair with
  | some TLPair.WE => st.scoreWE
  | some TLPair.NS => st.scoreNS
  | none => 0

/-- `shouldSwitchInAdaptive`: the competing pair's score must exceed the
current pair's by more than 50% and exceed 10. -/
def shouldSwitchInAdaptive (st : AdaptiveState) : Bool :=
  let otherPairKey : TLPair :=
    if st.currentPair = some TLPair.WE then TLPair.NS else TLPair.WE
  let currentScore := priorityScore st st.currentPair
  let otherScore := priorityScore st (some otherPairKey)
  decide (currentScore * 1.5 < otherScore) && decide ((10 : ℚ) < otherScore)

/-- `getHighestPriorityPair`: the strictly higher, strictly positive score
wins; ties (and the all-zero state) yield null. -/
def getHighestPriorityPair (st : AdaptiveState) : Option TLPair :=
  if st.scoreNS < st.scoreWE ∧ 0 < st.scoreWE then some TLPair.WE
  else if st.scoreWE < st.scoreNS ∧ 0 < st.scoreNS then some TLPair.NS
  else none

/-- The color of the active pair's lights per adaptive sub-phase. -/
def adaptivePhaseColor (phase : AdaptivePhase) : LightState :=
  match phase with
  | AdaptivePhase.green => LightState.green
  | AdaptivePhase.yellow => LightState.yellow
  | AdaptivePhase.red => LightState.red

/-- `setAdaptiveLightState`: all red, then the active pair takes its
sub-phase color. -/
def setAdaptiveLightState (st : AdaptiveState) : Direction → LightState := fun d =>
  match st.currentPair with
  | some TLPair.WE =>
      if d = Direction.west ∨ d = Direction.east then adaptivePhaseColor st.currentPhase
      else LightState.red
  | some TLPair.NS =>
      if d = Direction.north ∨ d = Direction.south then adaptivePhaseColor st.currentPhase
      else LightState.red
  | none => LightState.red

/-- `startAdaptiveGreen`. -/
def startAdaptiveGreen (t : TLAdaptive) : TLAdaptive :=
  let st := { t.adaptiveState with currentPhase := AdaptivePhase.green, phaseTimer := (0 : ℚ) }
  { adaptiveState := st, lights := setAdaptiveLightState st }

/-- `startAdaptiveYellow`. -/
def startAdaptiveYellow (t : TLAdaptive) : TLAdaptive :=
  let st := { t.adaptiveState with currentPhase := AdaptivePhase.yellow, phaseTimer := (0 : ℚ) }
  { adaptiveState := st, lights := setAdaptiveLightState st }

/-- `startAdaptiveRed`: all-red clearance. -/
def startAdaptiveRed (t : TLAdaptive) : TLAdaptive :=
  let st := { t.adaptiveState with currentPhase := AdaptivePhase.red, phaseTimer := (0 : ℚ) }
  { adaptiveState := st, lights := allRed }

/-- `switchToAdaptivePair`. -/
def switchToAdaptivePair (pair : TLPair) (t : TLAdaptive) : TLAdaptive :=
  startAdaptiveGreen
    { t with adaptiveState := { t.adaptiveState with currentPair := some pair } }

/-- `updateAdaptiveMode(deltaTime)`: bump the timer; with no active pair,
wait for the first positive-score pair; in green, switch to yellow exactly
on `shouldSwitchInAdaptive`; in yellow, go to red after `YELLOW_DURATION`;
in red, after the 2000 ms clearance re-read the highest-priority pair and
start its green (same pair or new pair) - a null answer leaves the state
unchanged. -/
def updateAdaptiveMode (settings : TLSettings) (deltaTime : ℚ) (t : TLAdaptive) : TLAdaptive :=
  let st1 := { t.adaptiveState with phaseTimer := t.adaptiveState.phaseTimer + deltaTime }
  let t1 : TLAdaptive := { t with adaptiveState := st1 }
  match st1.currentPair with
  | none =>
      match getHighestPriorityPair st1 with
      | some pair =>
          if 0 < priorityScore st1 (some pair) then switchToAdaptivePair pair t1 else t1
      | none => t1
  | some _ =>
      match st1.currentPhase with
      | AdaptivePhase.green =>
          if shouldSwitchInAdaptive st1 then startAdaptiveYellow t1 else t1
      | AdaptivePhase.yellow =>
          if settings.YELLOW_DURATION ≤ st1.phaseTimer then startAdaptiveRed t1 else t1
      | AdaptivePhase.red =>
          if 2000 ≤ st1.phaseTimer then
            match getHighestPriorityPair st1 with
            | some nextPair =>
                if ¬ some nextPair = st1.currentPair then switchToAdaptivePair nextPair t1
                else startAdaptiveGreen t1
            | none => t1
          else t1

/-- The competing pair of an active pair. -/
def otherPair (pair : TLPair) : TLPair :=
  match pair with
  | TLPair.WE => TLPair.NS
  | TLPair.NS => TLPair.WE

/-- C5.  In adaptive green with active pair `pair`, one update step moves to
yellow iff the competing pair's score exceeds the active score by more than
50% and exceeds 10; otherwise the controller stays green on the same
pair. -/
theorem C5_adaptive_green_switch (settings : TLSettings) (deltaTime : ℚ)
    (t : TLAdaptive) (pair : TLPair)
    (hpair : t.adaptiveState.currentPair = some pair)
    (hphase : t.adaptiveState.currentPhase = AdaptivePhase.green) :
    ((updateAdaptiveMode settings deltaTime t).adaptiveState.currentPhase =
        AdaptivePhase.yellow ↔
      priorityScore t.adaptiveState (some pair) * 1.5 <
          priorityScore t.adaptiveState (some (otherPair pair)) ∧
        (10 : ℚ) < priorityScore t.adaptiveState (some (otherPair pair))) ∧
    (¬ (priorityScore t.adaptiveState (some pair) * 1.5 <
          priorityScore t.adaptiveState (some (otherPair pair)) ∧
        (10 : ℚ) < priorityScore t.adaptiveState (some (otherPair pair))) →
      (updateAdaptiveMode settings deltaTime t).adaptiveState.currentPhase =
          AdaptivePhase.green ∧
        (updateAdaptiveMode settings deltaTime t).adaptiveState.currentPair = some pair) := by
  obtain ⟨⟨cp, ph, timer, act, sWE, sNS⟩, lights⟩ := t
  simp only at hpair hphase
  subst hpair hphase
  have hswitch : ∀ st : AdaptiveState, st.currentPair = some pair →
      (shouldSwitchInAdaptive st = true ↔
        priorityScore st (some pair) * 1.5 < priorityScore st (some (otherPair pair)) ∧
          (10 : ℚ) < priorityScore st (some (otherPair pair))) := by
    intro st hst
    cases pair <;>
      simp [shouldSwitchInAdaptive, priorityScore, otherPair, hst, Bool.and_eq_true,
        decide_eq_true_iff]
  by_cases hsw : priorityScore
      (AdaptiveState.mk (some pair) AdaptivePhase.green timer act sWE sNS) (some pair) * 1.5 <
        priorityScore (AdaptiveState.mk (some pair) AdaptivePhase.green timer act sWE sNS)
          (some (otherPair pair)) ∧
      (10 : ℚ) < priorityScore
        (AdaptiveState.mk (some pair) AdaptivePhase.green timer act sWE sNS)
        (some (otherPair pair))
  · have hs : shouldSwitchInAdaptive
        (AdaptiveState.mk (some pair) AdaptivePhase.green (timer + deltaTime) act sWE sNS) =
        true := by
      rw [hswitch _ rfl]
      exact hsw
    constructor
    · rw [updateAdaptiveMode]
      simp only [hs, if_true, startAdaptiveYellow]
      exact iff_of_true (by simp) hsw
    · intro hcon
      exact absurd hsw hcon
  · have hs : shouldSwitchInAdaptive
        (AdaptiveState.mk (some pair) AdaptivePhase.green (timer + deltaTime) act sWE sNS) =
        false := by
      rw [Bool.eq_false_iff, ne_eq, hswitch _ rfl]
      exact hsw
    constructor
    · rw [updateAdaptiveMode]
      simp only [hs, Bool.false_eq_true, if_false]
      exact iff_of_false (by simp) hsw
    · intro _
      rw [updateAdaptiveMode]
      simp only [hs, Bool.false_eq_true, if_false]
      exact ⟨by simp, by simp⟩

/-- A concrete adaptive state: WE pair active and green, NS score 20 against
WE score 0. -/
def tGreenWE : TLAdaptive :=
  { adaptiveState :=
      { currentPair := some TLPair.WE, currentPhase := AdaptivePhase.green,
        phaseTimer := 0, isActive := true, scoreWE := 0, scoreNS := 20 },
    lights := setAdaptiveLightState
      { currentPair := some TLPair.WE, currentPhase := AdaptivePhase.green,
        phaseTimer := 0, isActive := true, scoreWE := 0, scoreNS := 20 } }

/-- C5, witness: the green-switch theorem at `tGreenWE` with the default
settings and a 100 ms step, both hypotheses discharged by `rfl`. -/
theorem C5_witness :
    tGreenWE.adaptiveState.currentPair = some TLPair.WE ∧
    tGreenWE.adaptiveState.currentPhase = AdaptivePhase.green ∧
    (((updateAdaptiveMode defaultSettings 100 tGreenWE).adaptiveState.currentPhase =
        AdaptivePhase.yellow ↔
      priorityScore tGreenWE.adaptiveState (some TLPair.WE) * 1.5 <
          priorityScore tGreenWE.adaptiveState (some (otherPair TLPair.WE)) ∧
        (10 : ℚ) < priorityScore tGreenWE.adaptiveState (some (otherPair TLPair.WE))) ∧
    (¬ (priorityScore tGreenWE.adaptiveState (some TLPair.WE) * 1.5 <
          priorityScore tGreenWE.adaptiveState (some (otherPair TLPair.WE)) ∧
        (10 : ℚ) < priorityScore tGreenWE.adaptiveState (some (otherPair TLPair.WE))) →
      (updateAdaptiveMode defaultSettings 100 tGreenWE).adaptiveState.currentPhase =
          AdaptivePhase.green ∧
        (updateAdaptiveMode defaultSettings 100 tGreenWE).adaptiveState.currentPair =
          some TLPair.WE)) :=
  ⟨rfl, rfl, C5_adaptive_green_switch defaultSettings 100 tGreenWE TLPair.WE rfl rfl⟩

/-- One red-phase step with tied scores changes nothing but the timer. -/
theorem adaptive_red_tied_step (settings : TLSettings) (deltaTime : ℚ)
    (t : TLAdaptive) (pair : TLPair)
    (hpair : t.adaptiveState.currentPair = some pair)
    (hphase : t.adaptiveState.currentPhase = AdaptivePhase.red)
    (htie : t.adaptiveState.scoreWE = t.adaptiveState.scoreNS) :
    (updateAdaptiveMode settings deltaTime t).adaptiveState.currentPair = some pair ∧
    (updateAdaptiveMode settings deltaTime t).adaptiveState.currentPhase = AdaptivePhase.red ∧
    (updateAdaptiveMode settings deltaTime t).adaptiveState.scoreWE =
      t.adaptiveState.scoreWE ∧
    (updateAdaptiveMode settings deltaTime t).adaptiveState.scoreNS =
      t.adaptiveState.scoreNS ∧
    (updateAdaptiveMode settings deltaTime t).lights = t.lights := by
  obtain ⟨⟨cp, ph, timer, act, sWE, sNS⟩, lights⟩ := t
  simp only at hpair hphase htie
  subst hpair hphase htie
  have hnone : getHighestPriorityPair
      (AdaptiveState.mk (some pair) AdaptivePhase.red (timer + deltaTime) act sWE sWE) =
      none := by
    simp [getHighestPriorityPair, lt_irrefl]
  rw [updateAdaptiveMode]
  simp only [hnone]
  split_ifs <;> exact ⟨rfl, rfl, rfl, rfl, rfl⟩

/-- C10.  In adaptive red with an active pair and tied WE/NS scores (in
particular both zero), `getHighestPriorityPair` is null and no transition
out of red ever fires: over any sequence of update steps the phase stays
red, the pair, the scores and the lights are unchanged (so with all-red
lights every approach stays red), and the controller never returns to green
after the 2-second clearance. -/
theorem C10_adaptive_red_deadlock (settings : TLSettings) (t : TLAdaptive) (pair : TLPair)
    (hpair : t.adaptiveState.currentPair = some pair)
    (hphase : t.adaptiveState.currentPhase = AdaptivePhase.red)
    (htie : t.adaptiveState.scoreWE = t.adaptiveState.scoreNS) :
    getHighestPriorityPair t.adaptiveState = none ∧
    ∀ dts : List ℚ,
      (dts.foldl (fun acc deltaTime => updateAdaptiveMode settings deltaTime acc)
          t).adaptiveState.currentPhase = AdaptivePhase.red ∧
      (dts.foldl (fun acc deltaTime => updateAdaptiveMode settings deltaTime acc)
          t).adaptiveState.currentPair = some pair ∧
      (dts.foldl (fun acc deltaTime => updateAdaptiveMode settings deltaTime acc)
          t).lights = t.lights := by
  constructor
  · obtain ⟨⟨cp, ph, timer, act, sWE, sNS⟩, lights⟩ := t
    simp only at htie
    subst htie
    simp [getHighestPriorityPair, lt_irrefl]
  · intro dts
    induction dts generalizing t with
    | nil => exact ⟨hphase, hpair, rfl⟩
    | cons deltaTime rest ih =>
        obtain ⟨hp1, hp2, hp3, hp4, hp5⟩ :=
          adaptive_red_tied_step settings deltaTime t pair hpair hphase htie
        simp only [List.foldl_cons]
        obtain ⟨hq1, hq2, hq3⟩ :=
          ih (updateAdaptiveMode settings deltaTime t) hp1 hp2 (by rw [hp3, hp4, htie])
        exact ⟨hq1, hq2, by rw [hq3, hp5]⟩

/-- A concrete adaptive state: WE pair active, red clearance, tied zero
scores, all lights red. -/
def tRedTied : TLAdaptive :=
  { adaptiveState :=
      { currentPair := some TLPair.WE, currentPhase := AdaptivePhase.red,
        phaseTimer := 0, isActive := true, scoreWE := 0, scoreNS := 0 },
    lights := allRed }

/-- C10, witness: the red-deadlock theorem at `tRedTied`, every hypothesis
discharged by `rfl`. -/
theorem C10_witness :
    tRedTied.adaptiveState.currentPair = some TLPair.WE ∧
    tRedTied.adaptiveState.currentPhase = AdaptivePhase.red ∧
    tRedTied.adaptiveState.scoreWE = tRedTied.adaptiveState.scoreNS ∧
    (getHighestPriorityPair tRedTied.adaptiveState = none ∧
    ∀ dts : List ℚ,
      (dts.foldl (fun acc deltaTime => updateAdaptiveMode defaultSettings deltaTime acc)
          tRedTied).adaptiveState.currentPhase = AdaptivePhase.red ∧
      (dts.foldl (fun acc deltaTime => updateAdaptiveMode defaultSettings deltaTime acc)
          tRedTied).adaptiveState.currentPair = some TLPair.WE ∧
      (dts.foldl (fun acc deltaTime => updateAdaptiveMode defaultSettings deltaTime acc)
          tRedTied).lights = tRedTied.lights) :=
  ⟨rfl, rfl, rfl, C10_adaptive_red_deadlock defaultSettings tRedTied TLPair.WE rfl rfl rfl⟩

/-! ## Sensor system (sensors.js, class SensorSystem) -/

/-- A car as the sensor layer reads it: canvas position, approach
direction, waiting state (`isWaiting()`), elapsed wait time
(`getWaitTime()`, ms) and the edge-trigger flag `_countedInDetector`.
The in-place flag mutation the source performs on the car object is not
threaded back out of `update` (no modelled reader consumes it). -/
structure SensorCar where
  id : ℕ
  x : ℚ
  y : ℚ
  direction : Direction
  waiting : Bool
  waitTime : ℚ
  countedInDetector : Bool

/-- Per-approach sensor record (`sensorData[direction]`). -/
structure DirSensorData where
  carsWaiting : ℕ
  waitTime : ℚ
  detectedCars : List SensorCar
  firstCarWaitStart : Option ℚ
  totalCarsDetected : ℕ

/-- The sensor system state.  The intersection reference is modelled by the
canvas centre; `carCounts` is initialized and returned but never written
after construction and is not modelled. -/
structure SensorSystem where
  centerX : ℚ
  centerY : ℚ
  detectorDistance : ℚ
  sensorData : Direction → DirSensorData
  waitingCars : Direction → Option SensorCar
  totalCarsDetected : Direction → ℕ
  shouldResetCounts : Bool

/-- Stop-line reference abscissa `x1` per approach
(`Intersection.calculatePositions`: stop-line offset 65 = 120/2 + 5, road
half-width 30 = 60/2). -/
def stopLineX1 (sys : SensorSystem) (d : Direction) : ℚ :=
  match d with
  | Direction.north => sys.centerX - 30
  | Direction.east => sys.centerX + 65
  | Direction.south => sys.centerX - 30
  | Direction.west => sys.centerX - 65

/-- Stop-line reference ordinate `y1` per approach. -/
def stopLineY1 (sys : SensorSystem) (d : Direction) : ℚ :=
  match d with
  | Direction.north => sys.centerY - 65
  | Direction.east => sys.centerY - 30
  | Direction.south => sys.centerY + 65
  | Direction.west => sys.centerY - 30

/-- A detection rectangle. -/
structure DetectionZone where
  x1 : ℚ
  y1 : ℚ
  x2 : ℚ
  y2 : ℚ

/-- sensors.js `getDetectionZone(direction)`: the rectangle reaching
`detectorDistance` upstream of the stop line, road-width wide. -/
def getDetectionZone (sys : SensorSystem) (d : Direction) : DetectionZone :=
  match d with
  | Direction.north =>
      { x1 := sys.centerX - 30, y1 := stopLineY1 sys Direction.north - sys.detectorDistance,
        x2 := sys.centerX + 30, y2 := stopLineY1 sys Direction.north }
  | Direction.east =>
      { x1 := stopLineX1 sys Direction.east, y1 := sys.centerY - 30,
        x2 := stopLineX1 sys Direction.east + sys.detectorDistance, y2 := sys.centerY + 30 }
  | Direction.south =>
      { x1 := sys.centerX - 30, y1 := stopLineY1 sys Direction.south,
        x2 := sys.centerX + 30, y2 := stopLineY1 sys Direction.south + sys.detectorDistance }
  | Direction.west =>
      { x1 := stopLineX1 sys Direction.west - sys.detectorDistance, y1 := sys.centerY - 30,
        x2 := stopLineX1 sys Direction.west, y2 := sys.centerY + 30 }

/-- sensors.js `isCarInDetectionZone`. -/
def isCarInDetectionZone (car : SensorCar) (zone : DetectionZone) : Bool :=
  decide (zone.x1 ≤ car.x) && decide (car.x ≤ zone.x2) &&
    decide (zone.y1 ≤ car.y) && decide (car.y ≤ zone.y2)

/-- sensors.js `isCarCloserToStopLine`. -/
def isCarCloserToStopLine (sys : SensorSystem) (car1 car2 : SensorCar) (d : Direction) :
    Bool :=
  match d with
  | Direction.north => decide (|car1.y - stopLineY1 sys d| < |car2.y - stopLineY1 sys d|)
  | Direction.east => decide (|car1.x - stopLineX1 sys d| < |car2.x - stopLineX1 sys d|)
  | Direction.south => decide (|car1.y - stopLineY1 sys d| < |car2.y - stopLineY1 sys d|)
  | Direction.west => decide (|car1.x - stopLineX1 sys d| < |car2.x - stopLineX1 sys d|)

/-- sensors.js `resetCarCount(direction)`: zero one approach's cumulative
distinct-vehicle counter. -/
def SensorSystem.resetCarCount (sys : SensorSystem) (d : Direction) : SensorSystem :=
  { sys with totalCarsDetected := fun d2 => if d2 = d then 0 else sys.totalCarsDetected d2 }

/-- sensors.js `resetAllCarCounts`. -/
def SensorSystem.resetAllCarCounts (sys : SensorSystem) : SensorSystem :=
  { sys with totalCarsDetected := fun _ => 0 }

/-- The opening block of `update`: waiting counts, wait times, detected-car
lists, first-wait markers and closest-car tracking cleared for every
approach; cumulative totals kept. -/
def resetDetectionData (sys : SensorSystem) : SensorSystem :=
  { sys with
    sensorData := fun d =>
      { sys.sensorData d with
        carsWaiting := 0
        waitTime := 0
        detectedCars := []
        firstCarWaitStart := none }
    waitingCars := fun _ => none }

/-- The color-change block of `update`: every approach whose light differs
from the previous tick gets `resetCarCount` plus zeroed wait data. -/
def colorChangeReset (lightsNow prev : Direction → LightState) (sys : SensorSystem) :
    SensorSystem :=
  { sys with
    totalCarsDetected := fun d =>
      if lightsNow d ≠ prev d then 0 else sys.totalCarsDetected d
    sensorData := fun d =>
      if lightsNow d ≠ prev d then
        { sys.sensorData d with waitTime := 0, carsWaiting := 0 }
      else sys.sensorData d }

/-- The per-car body of the `update` loop: only red approaches count; a car
entering the zone is counted once into the cumulative totals, every in-zone
car is recorded, and a waiting in-zone car bumps the waiting count, may
become the tracked closest car, and stamps the first-wait marker. -/
def processSensorCar (lightStates : Option (Direction → LightState)) (now : ℚ)
    (sys : SensorSystem) (car : SensorCar) : SensorSystem :=
  match lightStates with
  | none => sys
  | some lightsNow =>
      let d := car.direction
      let zone := getDetectionZone sys d
      if lightsNow d = LightState.red then
        let inZone := isCarInDetectionZone car zone
        let sys1 :=
          if !car.countedInDetector && inZone then
            { sys with
              totalCarsDetected := fun d2 =>
                if d2 = d then sys.totalCarsDetected d + 1 else sys.totalCarsDetected d2
              sensorData := fun d2 =>
                if d2 = d then
                  { sys.sensorData d with totalCarsDetected := sys.totalCarsDetected d + 1 }
                else sys.sensorData d2 }
          else sys
        let sys2 :=
          if inZone then
            { sys1 with
              sensorData := fun d2 =>
                if d2 = d then
                  { sys1.sensorData d with
                    detectedCars := (sys1.sensorData d).detectedCars ++ [car] }
                else sys1.sensorData d2 }
          else sys1
        if car.waiting && inZone then
          { sys2 with
            sensorData := fun d2 =>
              if d2 = d then
                { sys2.sensorData d with
                  carsWaiting := (sys2.sensorData d).carsWaiting + 1
                  firstCarWaitStart :=
                    match (sys2.sensorData d).firstCarWaitStart with
                    | none => some (now - car.waitTime)
                    | some t0 => some t0 }
              else sys2.sensorData d2
            waitingCars := fun d2 =>
              if d2 = d then
                match sys2.waitingCars d with
                | none => some car
                | some best =>
                    if isCarCloserToStopLine sys2 car best d then some car else some best
              else sys2.waitingCars d2 }
        else sys2
      else sys

/-- The closing block of `update`: each approach with a tracked waiting car
publishes that car's wait time. -/
def finalWaitTimes (sys : SensorSystem) : SensorSystem :=
  { sys with
    sensorData := fun d =>
      match sys.waitingCars d with
      | some car => { sys.sensorData d with waitTime := car.waitTime }
      | none => sys.sensorData d }

/-- sensors.js `update(cars, lightStates, prevLightStates)`; `now` stands
for `Date.now()`. -/
def SensorSystem.update (sys : SensorSystem) (cars : List SensorCar)
    (lightStates prevLightStates : Option (Direction → LightState)) (now : ℚ) :
    SensorSystem :=
  let s1 := resetDetectionData sys
  let s2 :=
    match lightStates, prevLightStates with
    | some lightsNow, some prev => colorChangeReset lightsNow prev s1
    | _, _ => s1
  let s3 :=
    if s2.shouldResetCounts then
      { s2.resetAllCarCounts with shouldResetCounts := false }
    else s2
  let s4 := cars.foldl (processSensorCar lightStates now) s3
  finalWaitTimes s4

/-- Lights with the north approach green, all else red. -/
def lightsNorthGreen : Direction → LightState := fun d =>
  if d = Direction.north then LightState.green else LightState.red

/-- The previous tick's lights: everything red. -/
def lightsAllRed : Direction → LightState := fun _ => LightState.red

/-- A sensor state carrying 3 detected cars on every approach. -/
def sensorDemo : SensorSystem :=
  { centerX := 600, centerY := 600, detectorDistance := 500,
    sensorData := fun _ =>
      { carsWaiting := 2, waitTime := 4000, detectedCars := [],
        firstCarWaitStart := none, totalCarsDetected := 3 },
    waitingCars := fun _ => none,
    totalCarsDetected := fun _ => 3,
    shouldResetCounts := false }

/-- C7, counterexample.  The claim asserts a color change leaves the
approach's cumulative `totalCarsDetected` unchanged; in the code the
color-change block calls `resetCarCount`, so north's total drops from 3 to
0 the tick its light turns from red to green. -/
theorem C7_counterexample :
    lightsNorthGreen Direction.north ≠ lightsAllRed Direction.north ∧
    sensorDemo.totalCarsDetected Direction.north = 3 ∧
    (sensorDemo.update [] (some lightsNorthGreen) (some lightsAllRed) 0).totalCarsDetected
      Direction.north = 0 :=
  ⟨by decide, rfl, by rfl⟩

/-- C7, as amended.  When an approach's signal color differs from the
previous tick, `update` resets that approach's waiting count and wait time
to 0 and ALSO resets its cumulative distinct-vehicle count to 0 (via
`resetCarCount`); the cumulative count is not preserved across a color
change (stated here with no cars present, so the detection pass adds
nothing back). -/
theorem C7_color_change_resets_all (sys : SensorSystem)
    (lightsNow prev : Direction → LightState) (d : Direction) (now : ℚ)
    (hchange : lightsNow d ≠ prev d) :
    ((sys.update [] (some lightsNow) (some prev) now).sensorData d).carsWaiting = 0 ∧
    ((sys.update [] (some lightsNow) (some prev) now).sensorData d).waitTime = 0 ∧
    (sys.update [] (some lightsNow) (some prev) now).totalCarsDetected d = 0 := by
  by_cases hrc : sys.shouldResetCounts <;>
    simp [SensorSystem.update, resetDetectionData, colorChangeReset, finalWaitTimes,
      SensorSystem.resetAllCarCounts, hrc, hchange]

/-- C7, witness: the amended reset theorem at the concrete state and light
change of the counterexample, the hypothesis discharged by `decide`. -/
theorem C7_witness :
    lightsNorthGreen Direction.north ≠ lightsAllRed Direction.north ∧
    (((sensorDemo.update [] (some lightsNorthGreen) (some lightsAllRed) 0).sensorData
        Direction.north).carsWaiting = 0 ∧
      ((sensorDemo.update [] (some lightsNorthGreen) (some lightsAllRed) 0).sensorData
        Direction.north).waitTime = 0 ∧
      (sensorDemo.update [] (some lightsNorthGreen) (some lightsAllRed) 0).totalCarsDetected
        Direction.north = 0) :=
  ⟨by decide,
    C7_color_change_resets_all sensorDemo lightsNorthGreen lightsAllRed Direction.north 0
      (by decide)⟩

end Traffic
